import Mathlib

/-!
Shallow embedding of the contact-form / payment-logging FastAPI application
(src/main.py and src/utils/paystrax_helper.py).

Modelling conventions:
* Database tables are lists of rows in insertion order; a SQLAlchemy
  query-filter-first is a first-match scan, a query-filter-update maps over
  every matching row, and db.add followed by db.commit appends a row.
* Timestamps are natural numbers supplied by the caller; the updated_at
  column of ContactEntry has an onupdate hook (main.py line 50) so every
  committed UPDATE of a contact row rewrites updated_at with the current time.
* The multiple_images column stores a JSON array of file basenames; since
  json.dumps and json.loads are mutually inverse on lists of strings, the
  column is modelled directly as the decoded list.
* The filesystem is the list of file paths that exist; os.path.exists is
  membership, os.remove removes the path, writing a file appends its path.
* uuid4 is modelled by a caller-supplied injective-by-convention name supply
  fresh : Nat -> String, consumed left to right in program order.
* Gateway JSON payloads are modelled by a structure holding exactly the
  fields the handlers read, plus the raw serialized text.
-/

/-- A row of the contacts table (class ContactEntry, main.py lines 38-51). -/
structure ContactEntry where
  id : Nat
  name : String
  email : String
  phone : String
  message : String
  image_path : String
  pdf_path : String
  multiple_images : List String
  created_at : Nat
  updated_at : Nat
  deleted_at : Option Nat
deriving DecidableEq, Repr

/-- A row of the paystrax_logs table (class PaymentLog, main.py lines 53-62).
status_code and status_desc are nullable: the callback update writes
result.get of the gateway payload, which may be absent. -/
structure PaymentLog where
  id : Nat
  pay_id : String
  status_code : Option String
  status_desc : Option String
  amount : Option String
  full_response : String
  created_at : Nat
deriving DecidableEq, Repr

/-- The result object of a gateway JSON payload: code and description read
with dict.get, hence optional. -/
structure GatewayResult where
  code : Option String
  description : Option String
deriving DecidableEq, Repr

/-- A gateway JSON payload as read by the handlers: the payment id, the
result object, the redirect url when a redirect key is present, and the
raw serialized text stored in full_response. -/
structure GatewayResponse where
  id : Option String
  result : Option GatewayResult
  redirect_url : Option String
  raw : String
deriving DecidableEq, Repr

/-- An uploaded file as the handlers see it: its client-supplied filename
and content type. -/
structure UploadFileM where
  filename : String
  content_type : String
deriving DecidableEq, Repr

/-- The observable outcome of a request handler. -/
inductive WebOutcome where
  | redirect (url : String) (status : Nat)
  | httpError (status : Nat) (detail : String)
  | htmlPage (success : Bool) (status_desc : Option String) (txid : String)
  | jsonError (message : String)
  | rawJson (payload : String)
  | dbUpdated (gateway_response : String)
deriving DecidableEq, Repr

/-- State touched by the contact routes: the contacts table, the set of
files on disk, and the next autoincrement id. -/
structure ContactState where
  contacts : List ContactEntry
  files : List String
  nextId : Nat
deriving DecidableEq, Repr

def IMAGE_DIR : String := "uploads/images"

def PDF_DIR : String := "uploads/pdfs"

/-- Extension part of os.path.splitext for a bare filename: the suffix from
the last dot, provided a character that is not a dot occurs before that dot
(leading dots never start an extension). -/
def extChars (l : List Char) : List Char :=
  match l.reverse.findIdx? (fun c => c = '.') with
  | none => []
  | some k =>
    let i := l.length - 1 - k
    if (l.take i).any (fun c => c ≠ '.') then l.drop i else []

/-- os.path.basename for a slash-separated path: the suffix after the last
slash. -/
def os_basename (s : String) : String :=
  String.mk ((s.toList.reverse.takeWhile (fun c => c ≠ '/')).reverse)

/-- save_file (main.py lines 81-87): writes the uploaded file under the
destination folder at a fresh uuid name carrying the original extension and
returns the full path. -/
def save_file (destination_folder : String) (f : UploadFileM) (uuid : String) : String :=
  destination_folder ++ "/" ++ uuid ++ String.mk (extChars f.filename.toList)

/-- str.startswith of Python: the second string is a prefix of the first.
Implemented over character lists so that concrete instances evaluate. -/
def str_startswith (s pre : String) : Bool :=
  List.isPrefixOf pre.toList s.toList

/-- Both branches of a greedy optional single-character regex item: the
lists that remain after matching c zero times, or once when possible. -/
def optChar (c : Char) (l : List Char) : List (List Char) :=
  match l with
  | x :: r => if x = c then [r, l] else [l]
  | [] => [l]

/-- The body of the phone regex: an optional plus sign, an optional digit
one, then nine to fifteen digits consuming the whole remainder
(backtracking semantics of a Python regex). -/
def phoneCore (l : List Char) : Bool :=
  (optChar '+' l).any (fun l1 =>
    (optChar '1' l1).any (fun l2 =>
      l2.all Char.isDigit && decide (9 ≤ l2.length) && decide (l2.length ≤ 15)))

/-- re.match of the pattern anchored with a dollar sign (main.py line 114):
matches the whole string, or the whole string short of one trailing
newline, since a dollar also matches just before a final newline. -/
def phone_ok (phone : String) : Bool :=
  let l := phone.toList
  phoneCore l ||
    (match l.getLast? with
     | some c => c = '\n' && phoneCore (l.dropLast)
     | none => false)

/-- The gallery loop of handle_form_submission (main.py lines 120-125):
each uploaded file with a nonempty filename and an image content type is
saved under IMAGE_DIR and its basename appended to the gallery list; other
files are skipped. Returns the written paths, the gallery basenames, and
the next index of the name supply. -/
def processGallery (fresh : Nat → String) (k : Nat) :
    List UploadFileM → List String × List String × Nat
  | [] => ([], [], k)
  | f :: rest =>
    if f.filename ≠ "" ∧ str_startswith f.content_type "image/" then
      let p := save_file IMAGE_DIR f (fresh k)
      let (ws, gs, kk) := processGallery fresh (k + 1) rest
      (p :: ws, os_basename p :: gs, kk)
    else
      processGallery fresh k rest

/-- handle_form_submission (main.py lines 105-137): reject a phone that
fails the regex with a 400 and no side effect; otherwise save the image and
the pdf, run the gallery loop, insert one ContactEntry row with deleted_at
null, and answer a 303 redirect to the dashboard. -/
def handle_form_submission (st : ContactState) (fresh : Nat → String) (now : Nat)
    (name email phone message : String) (image pdf : UploadFileM)
    (multiple_images : List UploadFileM) : ContactState × WebOutcome :=
  if phone_ok phone = false then
    (st, .httpError 400 "Invalid phone format.")
  else
    let img_path := save_file IMAGE_DIR image (fresh 0)
    let pdf_path := save_file PDF_DIR pdf (fresh 1)
    let (written, gallery_paths, _) := processGallery fresh 2 multiple_images
    let new_contact : ContactEntry :=
      { id := st.nextId, name := name, email := email, phone := phone
        message := message, image_path := img_path, pdf_path := pdf_path
        multiple_images := gallery_paths
        created_at := now, updated_at := now, deleted_at := none }
    ({ contacts := st.contacts ++ [new_contact]
       files := st.files ++ [img_path, pdf_path] ++ written
       nextId := st.nextId + 1 },
     .redirect "/view-details" 303)

/-- db.query(ContactEntry).filter(id == contact_id).first(). -/
def findFirstEntry : List ContactEntry → Nat → Option ContactEntry
  | [], _ => none
  | e :: rest, cid => if e.id = cid then some e else findFirstEntry rest cid

/-- Mutating the ORM object returned by first() and committing: rewrite the
first row whose id matches, leave every other row alone. -/
def updateFirst : List ContactEntry → Nat → (ContactEntry → ContactEntry) → List ContactEntry
  | [], _, _ => []
  | e :: rest, cid, f =>
    if e.id = cid then f e :: rest else e :: updateFirst rest cid f

/-- dashboard_page (main.py lines 139-142): the default listing, the rows
whose deleted_at is null. -/
def dashboard_page (contacts : List ContactEntry) : List ContactEntry :=
  contacts.filter (fun e => e.deleted_at = none)

/-- soft_delete_entry (main.py lines 196-202): when a row with this id
exists, set its deleted_at to now (and updated_at through the onupdate
hook); in every case answer the 303 redirect to the dashboard. -/
def soft_delete_entry (contacts : List ContactEntry) (cid now : Nat) :
    List ContactEntry × WebOutcome :=
  (updateFirst contacts cid (fun e => { e with deleted_at := some now, updated_at := now }),
   .redirect "/view-details" 303)

/-- restore_entry (main.py lines 209-216): when a row with this id exists,
set its deleted_at back to null (updated_at rewritten by the onupdate
hook); in every case answer the 303 redirect to the trash view. -/
def restore_entry (contacts : List ContactEntry) (cid now : Nat) :
    List ContactEntry × WebOutcome :=
  (updateFirst contacts cid (fun e => { e with deleted_at := none, updated_at := now }),
   .redirect "/view-trash" 303)

/-- list.remove of Python: drop the first occurrence only. -/
def removeFirst : List String → String → List String
  | [], _ => []
  | a :: r, x => if a = x then r else a :: removeFirst r x

/-- The delete_images loop of update_entry (main.py lines 179-184): for
each requested name, when it is present in the current gallery, drop its
first occurrence from the gallery and delete the file under IMAGE_DIR when
it exists; names not present in the gallery are passed over. Arguments are
the requested names, the current gallery, and the filesystem. -/
def deleteImagesStep : List String → List String → List String → List String × List String
  | [], g, fs => (g, fs)
  | n :: rest, g, fs =>
    if n ∈ g then
      deleteImagesStep rest (removeFirst g n)
        (fs.filter (fun p => p ≠ IMAGE_DIR ++ "/" ++ n))
    else
      deleteImagesStep rest g fs

/-- The new_gallery loop of update_entry (main.py lines 186-188): each
uploaded file with a nonempty filename is saved under IMAGE_DIR and its
basename appended; unlike the submission loop there is no content-type
check. Returns written paths, appended basenames, and the next name index. -/
def galleryAdds (fresh : Nat → String) (k : Nat) :
    List UploadFileM → List String × List String × Nat
  | [] => ([], [], k)
  | f :: rest =>
    if f.filename ≠ "" then
      let p := save_file IMAGE_DIR f (fresh k)
      let (ws, gs, kk) := galleryAdds fresh (k + 1) rest
      (p :: ws, os_basename p :: gs, kk)
    else
      galleryAdds fresh k rest

/-- The form fields of the update route: message is required, the file
replacements and the deletion list and the new gallery files are optional
(File(None) and Form(None) make the absent case the empty list / none). -/
structure UpdateForm where
  message : String
  image : Option UploadFileM
  pdf : Option UploadFileM
  delete_images : List String
  new_gallery : List UploadFileM
deriving DecidableEq, Repr

/-- update_entry (main.py lines 160-194): 404 when no row has this id;
otherwise replace the single image and pdf when uploaded (deleting the old
file when it exists), run the deletion loop over the JSON-decoded gallery,
append the new gallery uploads, store the new message and gallery (with
updated_at rewritten by the onupdate hook) and answer the 303 redirect. -/
def update_entry (st : ContactState) (cid : Nat) (form : UpdateForm)
    (fresh : Nat → String) (now : Nat) : ContactState × WebOutcome :=
  match findFirstEntry st.contacts cid with
  | none => (st, .httpError 404 "Entry not found")
  | some entry =>
    let step1 :=
      match form.image with
      | some f =>
        if f.filename ≠ "" then
          let p := save_file IMAGE_DIR f (fresh 0)
          ((st.files.filter (fun q => q ≠ entry.image_path)) ++ [p], p, 1)
        else (st.files, entry.image_path, 0)
      | none => (st.files, entry.image_path, 0)
    let step2 :=
      match form.pdf with
      | some f =>
        if f.filename ≠ "" then
          let p := save_file PDF_DIR f (fresh step1.2.2)
          ((step1.1.filter (fun q => q ≠ entry.pdf_path)) ++ [p], p, step1.2.2 + 1)
        else (step1.1, entry.pdf_path, step1.2.2)
      | none => (step1.1, entry.pdf_path, step1.2.2)
    let del := deleteImagesStep form.delete_images entry.multiple_images step2.1
    let adds := galleryAdds fresh step2.2.2 form.new_gallery
    let updated : ContactEntry :=
      { entry with
          image_path := step1.2.1, pdf_path := step2.2.1
          message := form.message
          multiple_images := del.1 ++ adds.2.1
          updated_at := now }
    ({ contacts := updateFirst st.contacts cid (fun _ => updated)
       files := del.2 ++ adds.1
       nextId := st.nextId },
     .redirect "/view-details" 303)

/-- handle_checkout (main.py lines 235-262): send the direct charge to the
gateway, append exactly one PaymentLog row holding the gateway result code
and description verbatim (with defaults for absent fields), and answer the
database-updated JSON body carrying the raw gateway response. -/
def handle_checkout (db : List PaymentLog) (nextId now : Nat) (amount : String)
    (api_res : GatewayResponse) : List PaymentLog × WebOutcome :=
  let new_log : PaymentLog :=
    { id := nextId
      pay_id := api_res.id.getD "N/A"
      status_code := some ((api_res.result.bind GatewayResult.code).getD "Error")
      status_desc := some ((api_res.result.bind GatewayResult.description).getD "No description")
      amount := some amount
      full_response := api_res.raw
      created_at := now }
  (db ++ [new_log], .dbUpdated api_res.raw)

/-- initiate_3ds_payment (main.py lines 319-360): send the 3DS initiation,
append one PaymentLog row in the awaiting state, then redirect the browser
to the gateway redirect url when one is present, otherwise return the raw
gateway payload. -/
def initiate_3ds_payment (db : List PaymentLog) (nextId now : Nat)
    (amount : Option String) (api_response : GatewayResponse) :
    List PaymentLog × WebOutcome :=
  let log_entry : PaymentLog :=
    { id := nextId
      pay_id := api_response.id.getD "N/A"
      status_code := some ((api_response.result.bind GatewayResult.code).getD "PENDING_3DS")
      status_desc := some "Awaiting 3DS Authentication"
      amount := amount
      full_response := api_response.raw
      created_at := now }
  (db ++ [log_entry],
   match api_response.redirect_url with
   | some u => .redirect u 303
   | none => .rawJson api_response.raw)

/-- query(PaymentLog).filter(pay_id == id).update(...) (main.py lines
386-390): rewrite the status fields and the raw response of every row whose
pay_id matches. -/
def update_by_pay_id (db : List PaymentLog) (pid : String)
    (code desc : Option String) (raw : String) : List PaymentLog :=
  db.map (fun r =>
    if r.pay_id = pid then
      { r with status_code := code, status_desc := desc, full_response := raw }
    else r)

/-- handle_bank_redirection (main.py lines 363-406): verify the payment
with a server-to-server call. A transport failure (verify = none) raises
before the update and the except branch answers the error body. Otherwise
the update over pay_id and the commit always run; when the returned result
code is absent, the subsequent startswith on None raises after the commit
and the except branch answers the error body; when present, the handler
answers the confirmation page whose success flag is the 000 prefix test. -/
def handle_bank_redirection (db : List PaymentLog) (pid : String)
    (verify : Option GatewayResponse) : List PaymentLog × WebOutcome :=
  match verify with
  | none => (db, .jsonError "Verification Failed")
  | some v =>
    let status_code := v.result.bind GatewayResult.code
    let status_desc := v.result.bind GatewayResult.description
    let db2 := update_by_pay_id db pid status_code status_desc v.raw
    match status_code with
    | none => (db2, .jsonError "Verification Failed")
    | some c => (db2, .htmlPage (str_startswith c "000") status_desc pid)

/-! Helper lemmas shared by the claim theorems. -/

theorem updateFirst_comp (l : List ContactEntry) (cid : Nat)
    (f g : ContactEntry → ContactEntry) (hf : ∀ e, (f e).id = e.id) :
    updateFirst (updateFirst l cid f) cid g
      = updateFirst l cid (fun e => g (f e)) := by
  induction l with
  | nil => rfl
  | cons e rest ih =>
    by_cases h : e.id = cid
    · simp [updateFirst, h, hf]
    · simp [updateFirst, h, ih]

theorem updateFirst_not_found (l : List ContactEntry) (cid : Nat)
    (f : ContactEntry → ContactEntry) (h : ∀ e ∈ l, e.id ≠ cid) :
    updateFirst l cid f = l := by
  induction l with
  | nil => rfl
  | cons e rest ih =>
    simp only [updateFirst, if_neg (h e (List.mem_cons_self e rest))]
    exact congrArg (e :: ·) (ih (fun x hx => h x (List.mem_cons_of_mem e hx)))

theorem mem_of_mem_removeFirst (x m : String) (g : List String) :
    x ∈ removeFirst g m → x ∈ g := by
  induction g with
  | nil => intro h; simp [removeFirst] at h
  | cons a r ih =>
    intro h
    by_cases ha : a = m
    · simp only [removeFirst, if_pos ha] at h
      exact List.mem_cons_of_mem a h
    · simp only [removeFirst, if_neg ha, List.mem_cons] at h
      rcases h with h | h
      · exact h ▸ List.mem_cons_self a r
      · exact List.mem_cons_of_mem a (ih h)

theorem deleteImagesStep_skip (n : String) (l1 l2 g fs : List String)
    (h : n ∉ g) :
    deleteImagesStep (l1 ++ n :: l2) g fs = deleteImagesStep (l1 ++ l2) g fs := by
  induction l1 generalizing g fs with
  | nil => simp [deleteImagesStep, h]
  | cons m l1 ih =>
    by_cases hm : m ∈ g
    · simp only [List.cons_append, deleteImagesStep, if_pos hm]
      exact ih _ _ (fun hc => h (mem_of_mem_removeFirst n m g hc))
    · simp only [List.cons_append, deleteImagesStep, if_neg hm]
      exact ih _ _ h

theorem processGallery_skip (f : UploadFileM)
    (h : str_startswith f.content_type "image/" = false) :
    ∀ (g1 : List UploadFileM) (fresh : Nat → String) (k : Nat)
      (g2 : List UploadFileM),
      processGallery fresh k (g1 ++ f :: g2) = processGallery fresh k (g1 ++ g2) := by
  intro g1
  induction g1 with
  | nil =>
    intro fresh k g2
    simp [processGallery, h]
  | cons a g1 ih =>
    intro fresh k g2
    by_cases ha : a.filename ≠ "" ∧ str_startswith a.content_type "image/"
    · simp only [List.cons_append, processGallery, if_pos ha, List.append_eq]
      rw [ih]
    · simp only [List.cons_append, processGallery, if_neg ha, List.append_eq]
      exact ih fresh k g2

/-- first component of the callback handler on a transport success: the
update over pay_id always runs and is committed before the outcome is
computed. -/
theorem handle_bank_redirection_fst (db : List PaymentLog) (pid : String)
    (v : GatewayResponse) :
    (handle_bank_redirection db pid (some v)).1
      = update_by_pay_id db pid (v.result.bind GatewayResult.code)
          (v.result.bind GatewayResult.description) v.raw := by
  simp only [handle_bank_redirection]
  cases v.result.bind GatewayResult.code <;> rfl

theorem update_by_pay_id_length (db : List PaymentLog) (pid : String)
    (code desc : Option String) (raw : String) :
    (update_by_pay_id db pid code desc raw).length = db.length :=
  List.length_map _ _

/-- C6: the default listing (dashboard_page) contains an entry exactly when
that entry is in the table with deleted_at null; in particular no listed
entry has a non-null deleted_at. -/
theorem C6_active_listing_iff_not_deleted (contacts : List ContactEntry)
    (e : ContactEntry) :
    e ∈ dashboard_page contacts ↔ e ∈ contacts ∧ e.deleted_at = none := by
  simp [dashboard_page, List.mem_filter]

/-- C4 counterexample: soft deleting a missing id (id 7 on an empty table)
answers the ordinary 303 redirect to the dashboard, not a 404 NotFound, so
the claim that soft_delete signals NotFound on a missing id is false. -/
theorem C4_counterexample :
    soft_delete_entry [] 7 5 = ([], .redirect "/view-details" 303)
      ∧ WebOutcome.redirect "/view-details" 303
          ≠ WebOutcome.httpError 404 "Entry not found" := by
  exact ⟨rfl, by decide⟩

/-- C4 amended: when no row has the requested id, soft_delete_entry is a
silent no-op: the table is unchanged and the response is the same 303
redirect as on success; no NotFound is signalled. -/
theorem C4_missing_id_silent_noop (contacts : List ContactEntry)
    (cid now : Nat) (h : ∀ e ∈ contacts, e.id ≠ cid) :
    soft_delete_entry contacts cid now
      = (contacts, .redirect "/view-details" 303) := by
  simp only [soft_delete_entry, updateFirst_not_found contacts cid _ h]

theorem C4_missing_id_silent_noop_witness :
    soft_delete_entry
        [{ id := 3, name := "Jane Doe", email := "jane@example.com"
           phone := "+12025550134", message := "hello there, testing"
           image_path := "uploads/images/a.png", pdf_path := "uploads/pdfs/b.pdf"
           multiple_images := [], created_at := 0, updated_at := 0
           deleted_at := none }] 7 5
      = ([{ id := 3, name := "Jane Doe", email := "jane@example.com"
            phone := "+12025550134", message := "hello there, testing"
            image_path := "uploads/images/a.png", pdf_path := "uploads/pdfs/b.pdf"
            multiple_images := [], created_at := 0, updated_at := 0
            deleted_at := none }], .redirect "/view-details" 303) :=
  C4_missing_id_silent_noop _ 7 5 (by decide)

/-- C5 counterexample: an entry with updated_at 0, soft deleted at time 1
and restored at time 2, comes back with deleted_at null but updated_at 2
(the onupdate hook of main.py line 50 rewrites it on every commit), so the
restored record is not equal field-by-field to the original. -/
theorem C5_counterexample :
    (restore_entry
        (soft_delete_entry
          [{ id := 1, name := "Jane Doe", email := "jane@example.com"
             phone := "+12025550134", message := "hello there, testing"
             image_path := "uploads/images/a.png", pdf_path := "uploads/pdfs/b.pdf"
             multiple_images := ["g1.png"], created_at := 0, updated_at := 0
             deleted_at := none }] 1 1).1 1 2).1
      = [{ id := 1, name := "Jane Doe", email := "jane@example.com"
           phone := "+12025550134", message := "hello there, testing"
           image_path := "uploads/images/a.png", pdf_path := "uploads/pdfs/b.pdf"
           multiple_images := ["g1.png"], created_at := 0, updated_at := 2
           deleted_at := none }]
    ∧ ({ id := 1, name := "Jane Doe", email := "jane@example.com"
         phone := "+12025550134", message := "hello there, testing"
         image_path := "uploads/images/a.png", pdf_path := "uploads/pdfs/b.pdf"
         multiple_images := ["g1.png"], created_at := 0, updated_at := 2
         deleted_at := none } : ContactEntry)
      ≠ { id := 1, name := "Jane Doe", email := "jane@example.com"
          phone := "+12025550134", message := "hello there, testing"
          image_path := "uploads/images/a.png", pdf_path := "uploads/pdfs/b.pdf"
          multiple_images := ["g1.png"], created_at := 0, updated_at := 0
          deleted_at := none } := by
  exact ⟨rfl, by decide⟩

/-- C5 amended: soft_delete then restore on the same id restores every
field of the affected row except updated_at, which is rewritten with the
restore time by the onupdate hook; deleted_at is null again and all other
rows are untouched. -/
theorem C5_soft_delete_restore (contacts : List ContactEntry)
    (cid t1 t2 : Nat) :
    (restore_entry (soft_delete_entry contacts cid t1).1 cid t2).1
      = updateFirst contacts cid
          (fun e => { e with deleted_at := none, updated_at := t2 }) := by
  simp only [soft_delete_entry, restore_entry]
  exact updateFirst_comp contacts cid _ _ (fun e => rfl)

/-- C3: evaluating the callback handler at a pay_id with no matching row
(table empty, gateway verification succeeds with a success-family code):
the update matches zero rows, nothing is recorded, and the handler answers
the ordinary success confirmation page, exactly as if the update had
succeeded. The lookup miss is silently swallowed, against the stated
policy. -/
theorem C3_lookup_miss_swallowed :
    handle_bank_redirection [] "TX-MISSING"
        (some { id := none
                result := some { code := some "000.100.110"
                                 description := some "Request successfully processed" }
                redirect_url := none, raw := "verifyraw" })
      = ([], .htmlPage true (some "Request successfully processed") "TX-MISSING") := by
  rfl

/-- C1 counterexample: a direct charge whose gateway result code is
000.100.110 (the success family: it starts with the 000 prefix) produces a
row whose status_code is the verbatim code, not the word CONFIRMED; the
handler performs no CONFIRMED/DECLINED mapping at all. -/
theorem C1_counterexample :
    ((handle_checkout [] 1 0 "10.00"
        { id := some "PAY1"
          result := some { code := some "000.100.110"
                           description := some "Request successfully processed" }
          redirect_url := none, raw := "chargeraw" }).1.map PaymentLog.status_code)
      = [some "000.100.110"]
    ∧ str_startswith "000.100.110" "000" = true
    ∧ (some "000.100.110" : Option String) ≠ some "CONFIRMED" := by
  refine ⟨rfl, by decide, by decide⟩

/-- C1 amended: every direct charge appends exactly one PaymentLog row in
the same request, leaving the earlier rows untouched; the status fields of
the new row are the gateway result code and description stored verbatim
(with the defaults Error / No description when absent), whatever prefix the
code has — the handler never maps them to CONFIRMED or DECLINED. -/
theorem C1_one_row_verbatim_code (db : List PaymentLog) (nextId now : Nat)
    (amount : String) (api : GatewayResponse) :
    (handle_checkout db nextId now amount api).1.length = db.length + 1
    ∧ (handle_checkout db nextId now amount api).1.take db.length = db
    ∧ ∃ r, (handle_checkout db nextId now amount api).1.getLast? = some r
        ∧ r.status_code = some ((api.result.bind GatewayResult.code).getD "Error")
        ∧ r.status_desc = some ((api.result.bind GatewayResult.description).getD "No description")
        ∧ r.pay_id = api.id.getD "N/A"
        ∧ r.amount = some amount
        ∧ r.full_response = api.raw := by
  refine ⟨?_, ?_, ?_⟩
  · simp [handle_checkout]
  · simp [handle_checkout, List.take_left]
  · exact ⟨{ id := nextId
             pay_id := api.id.getD "N/A"
             status_code := some ((api.result.bind GatewayResult.code).getD "Error")
             status_desc := some ((api.result.bind GatewayResult.description).getD "No description")
             amount := some amount
             full_response := api.raw
             created_at := now },
           by simp [handle_checkout, List.getLast?_concat],
           rfl, rfl, rfl, rfl, rfl⟩

/-- C2: a 3DS initiation followed by the callback carrying the same payment
id leaves the row count unchanged (the callback inserts nothing) and
overwrites the status fields and the raw response of the row the initiation
created, keeping its id, amount and creation time. -/
theorem C2_callback_updates_initiation_row (db : List PaymentLog)
    (nextId now : Nat) (amount : Option String) (api v : GatewayResponse) :
    (handle_bank_redirection (initiate_3ds_payment db nextId now amount api).1
        (api.id.getD "N/A") (some v)).1.length
      = (initiate_3ds_payment db nextId now amount api).1.length
    ∧ (handle_bank_redirection (initiate_3ds_payment db nextId now amount api).1
        (api.id.getD "N/A") (some v)).1.getLast?
      = some { id := nextId
               pay_id := api.id.getD "N/A"
               status_code := v.result.bind GatewayResult.code
               status_desc := v.result.bind GatewayResult.description
               amount := amount
               full_response := v.raw
               created_at := now } := by
  constructor
  · rw [handle_bank_redirection_fst, update_by_pay_id_length]
  · rw [handle_bank_redirection_fst]
    simp [initiate_3ds_payment, update_by_pay_id, List.getLast?_concat]

/-- C7: a submission whose phone fails the regex is rejected with a 400
before any file write or row insertion: the state comes back unchanged. -/
theorem C7_invalid_phone_no_side_effects (st : ContactState)
    (fresh : Nat → String) (now : Nat) (name email phone message : String)
    (image pdf : UploadFileM) (gallery : List UploadFileM)
    (h : phone_ok phone = false) :
    handle_form_submission st fresh now name email phone message image pdf gallery
      = (st, .httpError 400 "Invalid phone format.") := by
  simp [handle_form_submission, h]

theorem C7_invalid_phone_no_side_effects_witness :
    handle_form_submission { contacts := [], files := [], nextId := 1 }
        (fun _ => "u0") 0 "Jane Doe" "jane@example.com" "abc"
        "hello there, testing"
        { filename := "a.png", content_type := "image/png" }
        { filename := "b.pdf", content_type := "application/pdf" } []
      = ({ contacts := [], files := [], nextId := 1 },
         .httpError 400 "Invalid phone format.") :=
  C7_invalid_phone_no_side_effects _ _ _ _ _ _ _ _ _ _ (by decide)

/-- C8 counterexample: a submission with a valid phone and one gallery file
of content type text/plain is not rejected: the handler answers the 303
redirect, creates one ContactEntry row (with an empty gallery) and writes
the image and pdf files. No 4xx is surfaced and side effects do occur, so
the claim is false. -/
theorem C8_counterexample :
    (handle_form_submission { contacts := [], files := [], nextId := 1 }
        (fun k => Nat.repr k) 7 "Jane Doe" "jane@example.com" "+12025550134"
        "hello there, testing"
        { filename := "a.png", content_type := "image/png" }
        { filename := "b.pdf", content_type := "application/pdf" }
        [{ filename := "notes.txt", content_type := "text/plain" }]).2
      = .redirect "/view-details" 303
    ∧ (handle_form_submission { contacts := [], files := [], nextId := 1 }
        (fun k => Nat.repr k) 7 "Jane Doe" "jane@example.com" "+12025550134"
        "hello there, testing"
        { filename := "a.png", content_type := "image/png" }
        { filename := "b.pdf", content_type := "application/pdf" }
        [{ filename := "notes.txt", content_type := "text/plain" }]).1.contacts.length
      = 1
    ∧ (handle_form_submission { contacts := [], files := [], nextId := 1 }
        (fun k => Nat.repr k) 7 "Jane Doe" "jane@example.com" "+12025550134"
        "hello there, testing"
        { filename := "a.png", content_type := "image/png" }
        { filename := "b.pdf", content_type := "application/pdf" }
        [{ filename := "notes.txt", content_type := "text/plain" }]).1.files
      = ["uploads/images/0.png", "uploads/pdfs/1.pdf"] := by
  exact ⟨rfl, rfl, rfl⟩

/-- C8 amended: a gallery file whose content type does not start with
image/ is silently skipped: the submission behaves exactly as if that file
had not been uploaded (same row, same gallery list, same files written, and
the ordinary 303 redirect); no validation error is surfaced. -/
theorem C8_non_image_gallery_file_skipped (st : ContactState)
    (fresh : Nat → String) (now : Nat) (name email phone message : String)
    (image pdf : UploadFileM) (g1 g2 : List UploadFileM) (f : UploadFileM)
    (h : str_startswith f.content_type "image/" = false) :
    handle_form_submission st fresh now name email phone message image pdf
        (g1 ++ f :: g2)
      = handle_form_submission st fresh now name email phone message image pdf
        (g1 ++ g2) := by
  unfold handle_form_submission
  rw [processGallery_skip f h]

theorem C8_non_image_gallery_file_skipped_witness :
    handle_form_submission { contacts := [], files := [], nextId := 1 }
        (fun k => Nat.repr k) 7 "Jane Doe" "jane@example.com" "+12025550134"
        "hello there, testing"
        { filename := "a.png", content_type := "image/png" }
        { filename := "b.pdf", content_type := "application/pdf" }
        ([] ++ { filename := "notes.txt", content_type := "text/plain" } :: [])
      = handle_form_submission { contacts := [], files := [], nextId := 1 }
        (fun k => Nat.repr k) 7 "Jane Doe" "jane@example.com" "+12025550134"
        "hello there, testing"
        { filename := "a.png", content_type := "image/png" }
        { filename := "b.pdf", content_type := "application/pdf" }
        ([] ++ []) :=
  C8_non_image_gallery_file_skipped _ _ _ _ _ _ _ _ _ _ _ _ (by decide)

/-- C9: on an update of an existing entry, a requested deletion ref that is
not in the entry gallery is a no-op for that ref: removing it from the
delete_images list changes nothing — no error, same gallery, same files,
same response. -/
theorem C9_delete_missing_ref_noop (st : ContactState) (cid : Nat)
    (form : UpdateForm) (fresh : Nat → String) (now : Nat)
    (e : ContactEntry) (n : String) (l1 l2 : List String)
    (hfind : findFirstEntry st.contacts cid = some e)
    (hn : n ∉ e.multiple_images)
    (hdel : form.delete_images = l1 ++ n :: l2) :
    update_entry st cid form fresh now
      = update_entry st cid { form with delete_images := l1 ++ l2 } fresh now := by
  simp only [update_entry, hfind, hdel]
  rw [deleteImagesStep_skip n l1 l2 e.multiple_images _ hn]

theorem C9_delete_missing_ref_noop_witness :
    update_entry
        { contacts := [{ id := 4, name := "Jane Doe", email := "jane@example.com"
                         phone := "+12025550134", message := "hello there, testing"
                         image_path := "uploads/images/a.png"
                         pdf_path := "uploads/pdfs/b.pdf"
                         multiple_images := ["g1.png"], created_at := 0
                         updated_at := 0, deleted_at := none }]
          files := ["uploads/images/a.png", "uploads/pdfs/b.pdf", "uploads/images/g1.png"]
          nextId := 5 } 4
        { message := "updated message here", image := none, pdf := none
          delete_images := ["ghost.png"], new_gallery := [] }
        (fun k => Nat.repr k) 9
      = update_entry
        { contacts := [{ id := 4, name := "Jane Doe", email := "jane@example.com"
                         phone := "+12025550134", message := "hello there, testing"
                         image_path := "uploads/images/a.png"
                         pdf_path := "uploads/pdfs/b.pdf"
                         multiple_images := ["g1.png"], created_at := 0
                         updated_at := 0, deleted_at := none }]
          files := ["uploads/images/a.png", "uploads/pdfs/b.pdf", "uploads/images/g1.png"]
          nextId := 5 } 4
        { message := "updated message here", image := none, pdf := none
          delete_images := [], new_gallery := [] }
        (fun k => Nat.repr k) 9 :=
  C9_delete_missing_ref_noop _ _ _ _ _
    { id := 4, name := "Jane Doe", email := "jane@example.com"
      phone := "+12025550134", message := "hello there, testing"
      image_path := "uploads/images/a.png", pdf_path := "uploads/pdfs/b.pdf"
      multiple_images := ["g1.png"], created_at := 0, updated_at := 0
      deleted_at := none }
    "ghost.png" [] [] (by decide) (by decide) rfl

/-- C10: on a callback with a transport-successful verification, every row
whose pay_id equals the callback id — not only the one created by the
matching initiation — has its status_code, status_desc and full_response
overwritten, each row keeping its position. -/
theorem C10_updates_every_matching_row (db : List PaymentLog) (pid : String)
    (v : GatewayResponse) (i : Nat) (r : PaymentLog)
    (hr : db[i]? = some r) (hmatch : r.pay_id = pid) :
    (handle_bank_redirection db pid (some v)).1[i]?
      = some { r with
               status_code := v.result.bind GatewayResult.code
               status_desc := v.result.bind GatewayResult.description
               full_response := v.raw } := by
  subst hmatch
  rw [handle_bank_redirection_fst]
  simp only [update_by_pay_id]
  rw [List.getElem?_map, hr]
  simp

theorem C10_updates_every_matching_row_witness :
    (handle_bank_redirection
        [{ id := 1, pay_id := "P7", status_code := some "PENDING_3DS"
           status_desc := some "Awaiting 3DS Authentication"
           amount := some "10.00", full_response := "raw1", created_at := 0 },
         { id := 2, pay_id := "P7", status_code := some "PENDING_3DS"
           status_desc := some "Awaiting 3DS Authentication"
           amount := some "10.00", full_response := "raw2", created_at := 1 }]
        "P7"
        (some { id := some "P7"
                result := some { code := some "000.100.110"
                                 description := some "Request successfully processed" }
                redirect_url := none, raw := "verifyraw" })).1[1]?
      = some { id := 2, pay_id := "P7", status_code := some "000.100.110"
               status_desc := some "Request successfully processed"
               amount := some "10.00", full_response := "verifyraw"
               created_at := 1 } :=
  C10_updates_every_matching_row
    [{ id := 1, pay_id := "P7", status_code := some "PENDING_3DS"
       status_desc := some "Awaiting 3DS Authentication"
       amount := some "10.00", full_response := "raw1", created_at := 0 },
     { id := 2, pay_id := "P7", status_code := some "PENDING_3DS"
       status_desc := some "Awaiting 3DS Authentication"
       amount := some "10.00", full_response := "raw2", created_at := 1 }]
    "P7"
    { id := some "P7"
      result := some { code := some "000.100.110"
                       description := some "Request successfully processed" }
      redirect_url := none, raw := "verifyraw" }
    1
    { id := 2, pay_id := "P7", status_code := some "PENDING_3DS"
      status_desc := some "Awaiting 3DS Authentication"
      amount := some "10.00", full_response := "raw2", created_at := 1 }
    rfl rfl
